import Mathlib

/-!
Verification of the rustdoc-generated implementors data file
`implementors/core/convert/trait.TryFrom.js`.

The file is an IIFE that builds a literal table mapping crate names to lists
of trait-implementation records, then either calls the host page's
`window.register_implementors` hook with the table or, when that hook is not
defined, stores the table into `window.pending_implementors`.

We embed the table as explicit Lean data (each record's `text` markup string
copied verbatim from the source), and the IIFE as a pure function from the
relevant window state to the resulting window state together with an explicit
log of hook invocations and global writes.
-/

namespace TryFromJs

/-- One implementor record of the source literal: the pre-rendered markup
string `text`, the boolean `synthetic` flag, and the list of fully-qualified
`types` identifiers. -/
structure ImplementorRecord where
  text : String
  synthetic : Bool
  types : List String
deriving DecidableEq, Repr

/-- The implementor table: an ordered association of crate-name keys to the
ordered list of their records, exactly as the JS object literal is authored. -/
abbrev ImplementorTable := List (String × List ImplementorRecord)

/-- The "text" field of record 1 of implementors["quinn_proto"], copied verbatim
from the source literal (apostrophes written as hex escapes). -/
def qp1_text : String :=
  "impl <a class=\"trait\" href=\"https://doc.rust-lang.org/nightly/core/convert/trait.TryFrom.html\" title=\"trait core::convert::TryFrom\">TryFrom</a>&lt;<a class=\"primitive\" href=\"https://doc.rust-lang.org/nightly/std/primitive.u64.html\">u64</a>&gt; for <a class=\"struct\" href=\"quinn_proto/struct.VarInt.html\" title=\"struct quinn_proto::VarInt\">VarInt</a>"

/-- Record 1 of implementors["quinn_proto"] in the source literal. -/
def qp1 : ImplementorRecord :=
  { text := qp1_text,
    synthetic := false,
    types := ["quinn_proto::varint::VarInt"] }

/-- The "text" field of record 2 of implementors["quinn_proto"], copied verbatim
from the source literal (apostrophes written as hex escapes). -/
def qp2_text : String :=
  "impl <a class=\"trait\" href=\"https://doc.rust-lang.org/nightly/core/convert/trait.TryFrom.html\" title=\"trait core::convert::TryFrom\">TryFrom</a>&lt;<a class=\"primitive\" href=\"https://doc.rust-lang.org/nightly/std/primitive.u128.html\">u128</a>&gt; for <a class=\"struct\" href=\"quinn_proto/struct.VarInt.html\" title=\"struct quinn_proto::VarInt\">VarInt</a>"

/-- Record 2 of implementors["quinn_proto"] in the source literal. -/
def qp2 : ImplementorRecord :=
  { text := qp2_text,
    synthetic := false,
    types := ["quinn_proto::varint::VarInt"] }

/-- The "text" field of record 3 of implementors["quinn_proto"], copied verbatim
from the source literal (apostrophes written as hex escapes). -/
def qp3_text : String :=
  "impl <a class=\"trait\" href=\"https://doc.rust-lang.org/nightly/core/convert/trait.TryFrom.html\" title=\"trait core::convert::TryFrom\">TryFrom</a>&lt;<a class=\"primitive\" href=\"https://doc.rust-lang.org/nightly/std/primitive.usize.html\">usize</a>&gt; for <a class=\"struct\" href=\"quinn_proto/struct.VarInt.html\" title=\"struct quinn_proto::VarInt\">VarInt</a>"

/-- Record 3 of implementors["quinn_proto"] in the source literal. -/
def qp3 : ImplementorRecord :=
  { text := qp3_text,
    synthetic := false,
    types := ["quinn_proto::varint::VarInt"] }

/-- The "text" field of record 4 of implementors["quinn_proto"], copied verbatim
from the source literal (apostrophes written as hex escapes). -/
def qp4_text : String :=
  "impl <a class=\"trait\" href=\"https://doc.rust-lang.org/nightly/core/convert/trait.TryFrom.html\" title=\"trait core::convert::TryFrom\">TryFrom</a>&lt;<a class=\"struct\" href=\"https://doc.rust-lang.org/nightly/core/time/struct.Duration.html\" title=\"struct core::time::Duration\">Duration</a>&gt; for <a class=\"struct\" href=\"quinn_proto/struct.IdleTimeout.html\" title=\"struct quinn_proto::IdleTimeout\">IdleTimeout</a>"

/-- Record 4 of implementors["quinn_proto"] in the source literal. -/
def qp4 : ImplementorRecord :=
  { text := qp4_text,
    synthetic := false,
    types := ["quinn_proto::config::IdleTimeout"] }

/-- The "text" field of record 1 of implementors["rustls"], copied verbatim
from the source literal (apostrophes written as hex escapes). -/
def rl1_text : String :=
  "impl <a class=\"trait\" href=\"https://doc.rust-lang.org/nightly/core/convert/trait.TryFrom.html\" title=\"trait core::convert::TryFrom\">TryFrom</a>&lt;<a class=\"struct\" href=\"rustls/internal/msgs/message/struct.PlainMessage.html\" title=\"struct rustls::internal::msgs::message::PlainMessage\">PlainMessage</a>&gt; for <a class=\"struct\" href=\"rustls/internal/msgs/message/struct.Message.html\" title=\"struct rustls::internal::msgs::message::Message\">Message</a>"

/-- Record 1 of implementors["rustls"] in the source literal. -/
def rl1 : ImplementorRecord :=
  { text := rl1_text,
    synthetic := false,
    types := ["rustls::msgs::message::Message"] }

/-- The "text" field of record 2 of implementors["rustls"], copied verbatim
from the source literal (apostrophes written as hex escapes). -/
def rl2_text : String :=
  "impl <a class=\"trait\" href=\"https://doc.rust-lang.org/nightly/core/convert/trait.TryFrom.html\" title=\"trait core::convert::TryFrom\">TryFrom</a>&lt;&amp;\x27_ <a class=\"primitive\" href=\"https://doc.rust-lang.org/nightly/std/primitive.str.html\">str</a>&gt; for <a class=\"enum\" href=\"rustls/client/enum.ServerName.html\" title=\"enum rustls::client::ServerName\">ServerName</a>"

/-- Record 2 of implementors["rustls"] in the source literal. -/
def rl2 : ImplementorRecord :=
  { text := rl2_text,
    synthetic := false,
    types := ["rustls::client::client_conn::ServerName"] }

/-- The "text" field of record 1 of implementors["tinyvec"], copied verbatim
from the source literal (apostrophes written as hex escapes). -/
def tv1_text : String :=
  "impl&lt;T, A&gt; <a class=\"trait\" href=\"https://doc.rust-lang.org/nightly/core/convert/trait.TryFrom.html\" title=\"trait core::convert::TryFrom\">TryFrom</a>&lt;<a class=\"primitive\" href=\"https://doc.rust-lang.org/nightly/core/primitive.slice.html\">&amp;\x27_ [T]</a>&gt; for <a class=\"struct\" href=\"tinyvec/struct.ArrayVec.html\" title=\"struct tinyvec::ArrayVec\">ArrayVec</a>&lt;A&gt; <span class=\"where fmt-newline\">where<br>&nbsp;&nbsp;&nbsp;&nbsp;T: <a class=\"trait\" href=\"https://doc.rust-lang.org/nightly/core/clone/trait.Clone.html\" title=\"trait core::clone::Clone\">Clone</a> + <a class=\"trait\" href=\"https://doc.rust-lang.org/nightly/core/default/trait.Default.html\" title=\"trait core::default::Default\">Default</a>,<br>&nbsp;&nbsp;&nbsp;&nbsp;A: <a class=\"trait\" href=\"tinyvec/trait.Array.html\" title=\"trait tinyvec::Array\">Array</a>&lt;Item = T&gt;,&nbsp;</span>"

/-- Record 1 of implementors["tinyvec"] in the source literal. -/
def tv1 : ImplementorRecord :=
  { text := tv1_text,
    synthetic := false,
    types := ["tinyvec::arrayvec::ArrayVec"] }

/-- The "text" field of record 1 of implementors["webpki"], copied verbatim
from the source literal (apostrophes written as hex escapes). -/
def wp1_text : String :=
  "impl&lt;\x27a&gt; <a class=\"trait\" href=\"https://doc.rust-lang.org/nightly/core/convert/trait.TryFrom.html\" title=\"trait core::convert::TryFrom\">TryFrom</a>&lt;<a class=\"primitive\" href=\"https://doc.rust-lang.org/nightly/std/primitive.slice.html\">&amp;\x27a [</a><a class=\"primitive\" href=\"https://doc.rust-lang.org/nightly/std/primitive.u8.html\">u8</a><a class=\"primitive\" href=\"https://doc.rust-lang.org/nightly/std/primitive.slice.html\">]</a>&gt; for <a class=\"struct\" href=\"webpki/struct.EndEntityCert.html\" title=\"struct webpki::EndEntityCert\">EndEntityCert</a>&lt;\x27a&gt;"

/-- Record 1 of implementors["webpki"] in the source literal. -/
def wp1 : ImplementorRecord :=
  { text := wp1_text,
    synthetic := false,
    types := ["webpki::end_entity::EndEntityCert"] }

/-- The "text" field of record 2 of implementors["webpki"], copied verbatim
from the source literal (apostrophes written as hex escapes). -/
def wp2_text : String :=
  "impl <a class=\"trait\" href=\"https://doc.rust-lang.org/nightly/core/convert/trait.TryFrom.html\" title=\"trait core::convert::TryFrom\">TryFrom</a>&lt;<a class=\"struct\" href=\"https://doc.rust-lang.org/nightly/std/time/struct.SystemTime.html\" title=\"struct std::time::SystemTime\">SystemTime</a>&gt; for <a class=\"struct\" href=\"webpki/struct.Time.html\" title=\"struct webpki::Time\">Time</a>"

/-- Record 2 of implementors["webpki"] in the source literal. -/
def wp2 : ImplementorRecord :=
  { text := wp2_text,
    synthetic := false,
    types := ["webpki::time::Time"] }

/-- The full implementor table literal, keys in authored source order. -/
def implementors : ImplementorTable :=
  [("quinn_proto", [qp1, qp2, qp3, qp4]),
   ("rustls", [rl1, rl2]),
   ("tinyvec", [tv1]),
   ("webpki", [wp1, wp2])]


/-- The list of all records of the table, in authored order. -/
def allRecords : List ImplementorRecord :=
  implementors.flatMap Prod.snd

/-- The window state the script can observe or change: whether
`window.register_implementors` is defined (truthy), and the current value of
`window.pending_implementors` (`none` when the slot is undefined). -/
structure Window where
  registerDefined : Bool
  pending_implementors : Option ImplementorTable
deriving DecidableEq, Repr

/-- A write to a global slot performed by the script. The only slot the
script ever assigns is `window.pending_implementors`. -/
inductive GlobalWrite where
  | setPendingImplementors : ImplementorTable → GlobalWrite
deriving DecidableEq, Repr

/-- Outcome of running the script: the arguments of every invocation of the
registration hook, the log of global-slot writes, and the final window. -/
structure LoadResult where
  hookCalls : List ImplementorTable
  writes : List GlobalWrite
  window : Window
deriving DecidableEq, Repr

/-- The IIFE: build `implementors`, then
`if (window.register_implementors) { window.register_implementors(implementors); }
else { window.pending_implementors = implementors; }`. -/
def loadScript (w : Window) : LoadResult :=
  if w.registerDefined then
    { hookCalls := [implementors], writes := [], window := w }
  else
    { hookCalls := [],
      writes := [GlobalWrite.setPendingImplementors implementors],
      window := { w with pending_implementors := some implementors } }

/-- A JSON-like value, the shape of the nested literal in the source file. -/
inductive Json where
  | str : String → Json
  | bool : Bool → Json
  | arr : List Json → Json
  | obj : List (String × Json) → Json
deriving Repr

/-- Serialize one record back to its object-literal form, with exactly the
field names `text`, `synthetic` and `types` in authored order. -/
def recordToJson (r : ImplementorRecord) : Json :=
  Json.obj [("text", Json.str r.text), ("synthetic", Json.bool r.synthetic),
            ("types", Json.arr (r.types.map Json.str))]

/-- Serialize the whole table back to its nested-literal form. -/
def tableToJson (t : ImplementorTable) : Json :=
  Json.obj (t.map fun kv => (kv.1, Json.arr (kv.2.map recordToJson)))

/-- Parse one record object back from its literal form. -/
def jsonToRecord : Json → Option ImplementorRecord
  | Json.obj [("text", Json.str s), ("synthetic", Json.bool b),
              ("types", Json.arr ts)] =>
    (ts.mapM fun j => match j with | Json.str ty => some ty | _ => none).map
      fun tys => { text := s, synthetic := b, types := tys }
  | _ => none

/-- Parse a table back from its nested-literal form. -/
def jsonToTable : Json → Option ImplementorTable
  | Json.obj kvs =>
    kvs.mapM fun kv => match kv.2 with
      | Json.arr rs => (rs.mapM jsonToRecord).map fun recs => (kv.1, recs)
      | _ => none
  | _ => none

/-- The source data literal transcribed as a JSON value, mirroring the nested
object/array shape of the file, in authored order. -/
def sourceJson : Json :=
  Json.obj
    [("quinn_proto", Json.arr
      [Json.obj [("text", Json.str qp1_text), ("synthetic", Json.bool false),
        ("types", Json.arr [Json.str "quinn_proto::varint::VarInt"])],
       Json.obj [("text", Json.str qp2_text), ("synthetic", Json.bool false),
        ("types", Json.arr [Json.str "quinn_proto::varint::VarInt"])],
       Json.obj [("text", Json.str qp3_text), ("synthetic", Json.bool false),
        ("types", Json.arr [Json.str "quinn_proto::varint::VarInt"])],
       Json.obj [("text", Json.str qp4_text), ("synthetic", Json.bool false),
        ("types", Json.arr [Json.str "quinn_proto::config::IdleTimeout"])]]),
     ("rustls", Json.arr
      [Json.obj [("text", Json.str rl1_text), ("synthetic", Json.bool false),
        ("types", Json.arr [Json.str "rustls::msgs::message::Message"])],
       Json.obj [("text", Json.str rl2_text), ("synthetic", Json.bool false),
        ("types", Json.arr [Json.str "rustls::client::client_conn::ServerName"])]]),
     ("tinyvec", Json.arr
      [Json.obj [("text", Json.str tv1_text), ("synthetic", Json.bool false),
        ("types", Json.arr [Json.str "tinyvec::arrayvec::ArrayVec"])]]),
     ("webpki", Json.arr
      [Json.obj [("text", Json.str wp1_text), ("synthetic", Json.bool false),
        ("types", Json.arr [Json.str "webpki::end_entity::EndEntityCert"])],
       Json.obj [("text", Json.str wp2_text), ("synthetic", Json.bool false),
        ("types", Json.arr [Json.str "webpki::time::Time"])]])]

/-- C1: if `window.register_implementors` is defined before the script loads,
executing the script invokes that hook exactly once, with the complete
implementor table (all four keys and all their records) as its sole argument. -/
theorem C1_hook_invoked_once_with_full_table (w : Window)
    (h : w.registerDefined = true) :
    (loadScript w).hookCalls = [implementors] := by
  simp [loadScript, h]

/-- Witness for C1 at the concrete window state with the hook defined and the
pending slot undefined. -/
theorem C1_witness :
    (loadScript ⟨true, none⟩).hookCalls = [implementors] :=
  C1_hook_invoked_once_with_full_table ⟨true, none⟩ rfl

/-- C2: if no hook is defined before the script loads, afterwards
`window.pending_implementors` holds the complete table and the hook was never
invoked. -/
theorem C2_pending_slot_holds_full_table (w : Window)
    (h : w.registerDefined = false) :
    (loadScript w).hookCalls = [] ∧
    (loadScript w).window.pending_implementors = some implementors := by
  simp [loadScript, h]

/-- Witness for C2 at the concrete window state with no hook and an undefined
pending slot. -/
theorem C2_witness :
    (loadScript ⟨false, none⟩).hookCalls = [] ∧
    (loadScript ⟨false, none⟩).window.pending_implementors = some implementors :=
  C2_pending_slot_holds_full_table ⟨false, none⟩ rfl

/-- C3: the table has exactly the keys "quinn_proto", "rustls", "tinyvec",
"webpki" in that order, mapped to non-empty sequences of 4, 2, 1 and 2
records respectively. -/
theorem C3_keys_and_cardinalities :
    implementors.map Prod.fst = ["quinn_proto", "rustls", "tinyvec", "webpki"] ∧
    implementors.map (fun kv => kv.2.length) = [4, 2, 1, 2] ∧
    ∀ kv ∈ implementors, kv.2 ≠ [] := by
  exact ⟨rfl, rfl, by decide⟩

/-- C4: whichever branch runs, the table delivered (to the hook, or into the
pending slot) is the literal itself, and each key's sequence is exactly the
authored records in authored order. -/
theorem C4_order_preserved_as_authored (w : Window) :
    (if w.registerDefined then (loadScript w).hookCalls = [implementors]
     else (loadScript w).window.pending_implementors = some implementors) ∧
    List.lookup "quinn_proto" implementors = some [qp1, qp2, qp3, qp4] ∧
    List.lookup "rustls" implementors = some [rl1, rl2] ∧
    List.lookup "tinyvec" implementors = some [tv1] ∧
    List.lookup "webpki" implementors = some [wp1, wp2] := by
  refine ⟨?_, rfl, rfl, rfl, rfl⟩
  by_cases h : w.registerDefined <;> simp [loadScript, h]

/-- C5: the table's keys are pairwise distinct, and the script never mutates
the table: every table it passes to the hook and every table it writes to a
global slot is the constructed literal itself, unchanged. -/
theorem C5_unique_keys_and_immutable (w : Window) :
    (implementors.map Prod.fst).Nodup ∧
    (∀ t ∈ (loadScript w).hookCalls, t = implementors) ∧
    (∀ x ∈ (loadScript w).writes,
      x = GlobalWrite.setPendingImplementors implementors) := by
  refine ⟨by decide, ?_, ?_⟩ <;>
    by_cases h : w.registerDefined <;> simp [loadScript, h]

/-- C6: every record of every entry consists of exactly the fields `text`
(a string), `synthetic` (a boolean) and `types` (a sequence of strings), and
serializes to an object with exactly those field names in that order; each
`types` entry is a fully-qualified path identifier (it contains "::"). -/
theorem C6_record_shape :
    ∀ r ∈ allRecords,
      recordToJson r =
        Json.obj [("text", Json.str r.text), ("synthetic", Json.bool r.synthetic),
                  ("types", Json.arr (r.types.map Json.str))] ∧
      ∀ ty ∈ r.types, List.IsInfix "::".toList ty.toList := by
  intro r hr
  exact ⟨rfl, by revert r hr; decide⟩

/-- Witness for C6 at the first record of the table. -/
theorem C6_witness :
    recordToJson qp1 =
      Json.obj [("text", Json.str qp1.text), ("synthetic", Json.bool qp1.synthetic),
                ("types", Json.arr (qp1.types.map Json.str))] ∧
    ∀ ty ∈ qp1.types, List.IsInfix "::".toList ty.toList :=
  C6_record_shape qp1 (by simp [allRecords, implementors])

/-- C7: the load operation is total: for every window state it completes,
taking exactly one of the two branches — hook invocation, or the normal
(non-error) fallback that fills the pending slot. -/
theorem C7_total_two_branch_dispatch (w : Window) :
    ((loadScript w).hookCalls = [implementors] ∧ (loadScript w).writes = []) ∨
    ((loadScript w).hookCalls = [] ∧
     (loadScript w).window.pending_implementors = some implementors) := by
  by_cases h : w.registerDefined
  · exact Or.inl (by simp [loadScript, h])
  · exact Or.inr (by simp [loadScript, h])

/-- C8: round trip — serializing the constructed table yields exactly the
source literal (as a JSON value), and parsing the source literal back yields
exactly the constructed table. -/
theorem C8_roundtrip_equals_source_literal :
    tableToJson implementors = sourceJson ∧
    jsonToTable sourceJson = some implementors := by
  exact ⟨rfl, rfl⟩

/-- C9: in every execution exactly one effect happens — either one hook call
or one global write, never both; the only writable slot ever assigned is the
pending slot; when the hook call happens, the window (the pending slot
included) is left completely unchanged. -/
theorem C9_single_effect_frame (w : Window) :
    (loadScript w).hookCalls.length + (loadScript w).writes.length = 1 ∧
    (loadScript w).window.registerDefined = w.registerDefined ∧
    ((loadScript w).hookCalls = [] ∨ (loadScript w).window = w) ∧
    ((loadScript w).writes = [] ∨
      (loadScript w).window =
        { w with pending_implementors := some implementors }) := by
  by_cases h : w.registerDefined <;> simp [loadScript, h]

/-- C10: every record of the table has `synthetic = false` and a `types`
sequence of exactly one identifier. -/
theorem C10_nonsynthetic_single_type :
    ∀ r ∈ allRecords, r.synthetic = false ∧ r.types.length = 1 := by
  decide

/-- Witness for C10 at the first record of the table. -/
theorem C10_witness : qp1.synthetic = false ∧ qp1.types.length = 1 :=
  C10_nonsynthetic_single_type qp1 (by simp [allRecords, implementors])

end TryFromJs
